import Mathlib

/-!
Shallow embedding of the solver-director project lifecycle orchestrator:
the project router (create / list / status / config / solution / delete),
the cluster provisioning routine, the result collector loop, the solution
data streamer, and the application lifespan, together with theorems about
the behaviours claimed in the specification.
-/

namespace SolverDirector

/-! ### Queue and namespace naming helpers (src/utils.py) -/

/-- `solvers_namespace` from src/utils.py. -/
def solvers_namespace (namespc : String) : String :=
  namespc ++ "-solvers"

/-- `control_queue_name` from src/utils.py. -/
def control_queue_name (namespc : String) : String :=
  "project-" ++ namespc ++ "-controller"

/-- `result_queue_name` from src/utils.py. -/
def result_queue_name (namespc : String) : String :=
  "project-" ++ namespc ++ "-result"

/-- `project_director_queue_name` from src/utils.py. -/
def project_director_queue_name (namespc : String) : String :=
  "project-" ++ namespc ++ "-director"

/-- `Config.RabbitMQ.SOLVER_DIRECTOR_RESULT_QUEUE` from src/config.py. -/
def SOLVER_DIRECTOR_RESULT_QUEUE : String := "solver_director_result_queue"

/-- `solver_director_result_queue_name` from src/utils.py. -/
def solver_director_result_queue_name : String := SOLVER_DIRECTOR_RESULT_QUEUE

/-! ### UUID path-parameter parsing

The routes call `UUID(project_id)` and treat `ValueError` as not-found.
CPython's `uuid.UUID(hex)` removes every occurrence of `urn:` and `uuid:`,
strips curly braces from both ends, removes every hyphen, and then requires
exactly 32 hexadecimal digits.  We model the parse as returning the
canonical lowercase 32-hex-digit string on success. -/

def isBraceChar (c : Char) : Bool :=
  c = Char.ofNat 123 || c = Char.ofNat 125

def isHexChar (c : Char) : Bool :=
  (Char.ofNat 48 ≤ c && c ≤ Char.ofNat 57) ||
  (Char.ofNat 97 ≤ c && c ≤ Char.ofNat 102) ||
  (Char.ofNat 65 ≤ c && c ≤ Char.ofNat 70)

/-- Strip brace characters from both ends, as Python's str.strip does. -/
def stripBraceChars (l : List Char) : List Char :=
  ((l.dropWhile isBraceChar).reverse.dropWhile isBraceChar).reverse

/-- Python's left-to-right non-overlapping `str.replace(pat, "")`,
written with a fuel argument (one unit per consumed character) so it is
structurally recursive. -/
def removeSubstrFuel (pat : List Char) : Nat → List Char → List Char
  | _, [] => []
  | 0, l => l
  | fuel + 1, c :: cs =>
    if pat ≠ [] && pat.isPrefixOf (c :: cs) then
      removeSubstrFuel pat fuel (cs.drop (pat.length - 1))
    else c :: removeSubstrFuel pat fuel cs

def removeSubstr (pat : List Char) (l : List Char) : List Char :=
  removeSubstrFuel pat l.length l

/-- `UUID(project_id)` parse, returning the canonical lowercase hex
string.  `none` models the `ValueError` branch of the route handlers.
CPython removes `urn:` and `uuid:`, strips braces from both ends, removes
hyphens, and requires exactly 32 hex digits. -/
def parseUUID (s : String) : Option String :=
  let cleaned :=
    (stripBraceChars
        (removeSubstr "uuid:".data (removeSubstr "urn:".data s.data))).filter
      (fun c => !(c = Char.ofNat 45))
  if cleaned.length = 32 && cleaned.all isHexChar then
    some (String.mk (cleaned.map Char.toLower))
  else
    none

/-! ### Data model (src/models.py) -/

/-- The `Project` ORM row (src/models.py).  The id is the canonical
lowercase hex form of the UUID primary key. -/
structure Project where
  id : String
  user_id : String
  name : String
  configuration : String
deriving Repr, DecidableEq

/-- The `ProjectResult` ORM row (src/models.py); `id` is the
auto-incrementing BigInteger primary key (insertion sequence).  The
`project_id` foreign-key column carries no `nullable=False`, so it is
nullable: `none` models SQL NULL. -/
structure ProjectResult where
  id : Nat
  project_id : Option String
  problem_id : Int
  instance_id : Int
  solver_id : Int
  result : String
  vcpus : Int
deriving Repr, DecidableEq

/-- The relational store: the `projects` and `project_results` tables plus
the auto-increment counter for `project_results.id`. -/
structure Db where
  projects : List Project
  results : List ProjectResult
  nextResultId : Nat
deriving Repr, DecidableEq

/-- A structured HTTP response as produced by the router: status code and,
for error responses, the body's `detail` string. -/
structure HttpResponse where
  status : Nat
  detail : Option String
deriving Repr, DecidableEq

/-- The uniform project-scoped not-found response
`404 {"detail": "Invalid user or project"}`. -/
def invalidUserOrProject : HttpResponse :=
  { status := 404, detail := some "Invalid user or project" }

/-- Look up a project by parsed UUID, as
`db.query(Project).filter(Project.id == uuid_id).first()`. -/
def Db.findProject (db : Db) (uid : String) : Option Project :=
  db.projects.find? (fun p => p.id == uid)

/-- `get_projects` (src/routers/api/projects.py): all projects owned by the
authenticated user. -/
def get_projects (db : Db) (userId : String) : List Project :=
  db.projects.filter (fun p => p.user_id == userId)

/-! ### Cluster provisioning (src/spawner/start_service.py, stop_service.py)

Every Kubernetes API call is modelled by the outcome the cluster returns
for it (`ok`, or an `ApiException` with an HTTP status).  The source wraps
only some creations in a `try/except` that passes on status 409; the
`ConflictPolicy` of each step records whether that wrapper is present. -/

inductive KubeRes where
  | ok
  | err (status : Nat)
deriving Repr, DecidableEq

inductive PubRes where
  | ok
  | exc (msg : String)
deriving Repr, DecidableEq

/-- The behaviour of the external cluster and broker during one
provisioning run: the outcome of each API call the source makes. -/
structure ClusterEnv where
  createNamespaceRes : String → KubeRes
  readTemplateSecretRes : KubeRes
  createSecretRes : String → KubeRes
  createRoleRes : KubeRes
  createRoleBindingRes : KubeRes
  createQuotaRes : KubeRes
  createPodRes : String → KubeRes
  createServiceRes : String → KubeRes
  deleteNamespaceRes : String → KubeRes
  publishRes : PubRes

/-- Exceptions escaping `start_project_services`: the fastapi
`HTTPException` raised at the user cap, a kubernetes `ApiException`, or a
publish failure. -/
inductive SpawnErr where
  | httpExc (status : Nat) (detail : String)
  | apiExc (status : Nat)
  | pubExc (msg : String)
deriving Repr, DecidableEq

/-- Whether a creation call is wrapped in the source's
`except ApiException: if e.status == 409: pass else: raise` block. -/
inductive ConflictPolicy where
  | lenient
  | strict
deriving Repr, DecidableEq

structure KubeStep where
  call : String
  policy : ConflictPolicy
  res : KubeRes

/-- Outcome of one call: `none` means control continues past it. -/
def stepFails (s : KubeStep) : Option Nat :=
  match s.res with
  | .ok => none
  | .err st =>
    match s.policy with
    | .lenient => if st = 409 then none else some st
    | .strict => some st

/-- Run calls in source order, recording the calls made and the first
propagating `ApiException` status, after which no further call runs. -/
def runKubeSteps : List KubeStep → List String × Option Nat
  | [] => ([], none)
  | s :: rest =>
    match stepFails s with
    | some st => ([s.call], some st)
    | none =>
      let (tr, e) := runKubeSteps rest
      (s.call :: tr, e)

/-- `stop_solver_controller` (src/spawner/stop_service.py): delete the
control namespace, then the solvers namespace; neither call is wrapped, so
any `ApiException` (including 404 for an absent namespace) propagates. -/
def stop_solver_controller (env : ClusterEnv) (namespc : String) :
    List String × Option Nat :=
  match env.deleteNamespaceRes namespc with
  | .err st => (["delete_namespace " ++ namespc], some st)
  | .ok =>
    match env.deleteNamespaceRes (solvers_namespace namespc) with
    | .err st =>
      (["delete_namespace " ++ namespc,
        "delete_namespace " ++ solvers_namespace namespc], some st)
    | .ok =>
      (["delete_namespace " ++ namespc,
        "delete_namespace " ++ solvers_namespace namespc], none)

/-- Detail of the `HTTPException(429)` raised at the per-user cap.  The
source spells the third word with an apostrophe (it + apostrophe + s);
the spelling is normalized here and the constant never reaches the
caller (see the C6 theorem), so no claim depends on its exact text. -/
def detail429 : String :=
  "user has reached its limit for concurrent solver controllers spawned"

/-- The cluster API calls of `start_project_services`, in source order,
each tagged with whether its 409 is passed over (lenient) or re-raised
(strict, i.e. no `try/except` around the call in the source). -/
def spawnKubeSteps (env : ClusterEnv) (id : String) : List KubeStep :=
  let ns := solvers_namespace id
  [ ⟨"create_namespace " ++ id, .lenient, env.createNamespaceRes id⟩,
    ⟨"create_namespace " ++ ns, .lenient, env.createNamespaceRes ns⟩,
    ⟨"read_namespaced_secret harbor-creds-pull psp", .strict,
      env.readTemplateSecretRes⟩,
    ⟨"create_namespaced_secret " ++ id, .strict, env.createSecretRes id⟩,
    ⟨"create_namespaced_secret " ++ ns, .strict, env.createSecretRes ns⟩,
    ⟨"create_namespaced_role " ++ ns, .lenient, env.createRoleRes⟩,
    ⟨"create_namespaced_role_binding " ++ ns, .lenient,
      env.createRoleBindingRes⟩,
    ⟨"create_namespaced_resource_quota " ++ ns, .lenient, env.createQuotaRes⟩,
    ⟨"create_namespaced_pod solver-controller " ++ id, .strict,
      env.createPodRes "solver-controller"⟩,
    ⟨"create_namespaced_service solver-controller " ++ id, .strict,
      env.createServiceRes "solver-controller"⟩,
    ⟨"create_namespaced_pod data-gatherer " ++ id, .strict,
      env.createPodRes "data-gatherer"⟩,
    ⟨"create_namespaced_service data-gatherer " ++ id, .strict,
      env.createServiceRes "data-gatherer"⟩ ]

structure SpawnResult where
  trace : List String
  err : Option SpawnErr
deriving Repr

/-- `start_project_services` (src/spawner/start_service.py).
`limitReached` is the value of `is_user_limit_reached(user_id)`
(modelled from the spec: the `src.spawner.status_service` module is not in
the sources; the spec says it reports whether the user already has at
least the configured number of live provisioned environments).
On a publish exception the source calls `stop_solver_controller(id)` and
re-raises; an exception from that cleanup propagates instead. -/
def start_project_services (env : ClusterEnv) (limitReached : Bool)
    (id : String) : SpawnResult :=
  if limitReached then
    { trace := [], err := some (.httpExc 429 detail429) }
  else
    let (tr, e) := runKubeSteps (spawnKubeSteps env id)
    match e with
    | some st => { trace := tr, err := some (.apiExc st) }
    | none =>
      match env.publishRes with
      | .ok =>
        { trace := tr ++ ["publish " ++ project_director_queue_name id],
          err := none }
      | .exc m =>
        let (dtr, de) := stop_solver_controller env id
        match de with
        | some st => { trace := tr ++ dtr, err := some (.apiExc st) }
        | none => { trace := tr ++ dtr, err := some (.pubExc m) }

/-! ### Project creation route (src/routers/api/projects.py) -/

inductive DbCallRes where
  | ok
  | exc (msg : String)
deriving Repr, DecidableEq

/-- The externally-determined outcomes of one `create_project` request:
the `db.flush()` and `db.commit()` results, the cluster behaviour, and
the user-cap state. -/
structure CreateCtx where
  flushRes : DbCallRes
  commitRes : DbCallRes
  env : ClusterEnv
  limitReached : Bool

structure CreateOutcome where
  db : Db
  response : HttpResponse
  projectOut : Option Project

/-- Generic creation failure response: every `except Exception` branch of
`create_project` raises `HTTPException(500, "Unable to create project")`. -/
def unableToCreate : HttpResponse :=
  { status := 500, detail := some "Unable to create project" }

/-- `create_project` (src/routers/api/projects.py).  The row is added and
flushed but only committed after `start_project_services` succeeds; every
failure (flush, any exception out of `start_project_services` — including
its `HTTPException(429)`, caught by the bare `except Exception` — and
commit) rolls the transaction back and returns the generic 500. -/
def create_project (ctx : CreateCtx) (db : Db)
    (userId name configuration newId : String) : CreateOutcome :=
  let project : Project :=
    { id := newId, user_id := userId, name := name,
      configuration := configuration }
  match ctx.flushRes with
  | .exc _ => { db := db, response := unableToCreate, projectOut := none }
  | .ok =>
    match (start_project_services ctx.env ctx.limitReached newId).err with
    | some _ => { db := db, response := unableToCreate, projectOut := none }
    | none =>
      match ctx.commitRes with
      | .exc _ => { db := db, response := unableToCreate, projectOut := none }
      | .ok =>
        { db := { db with projects := db.projects ++ [project] },
          response := { status := 201, detail := none },
          projectOut := some project }

/-! ### Project-scoped read/delete routes (src/routers/api/projects.py)

Each handler first parses the path parameter as a UUID (a `ValueError`
yields the uniform 404) and then requires the row to exist and be owned by
the caller (`if not project or project.user_id != user.id`). -/

/-- `get_project_status`: after the guard, a bounded-timeout HTTP call to
the solver controller; `statusRes` is `some doc` when `requests.get`
returns a 2xx JSON document and `none` when the call raises. -/
def get_project_status (db : Db) (userId raw : String)
    (statusRes : Option String) : HttpResponse × Option String :=
  match parseUUID raw with
  | none => (invalidUserOrProject, none)
  | some uid =>
    match db.findProject uid with
    | none => (invalidUserOrProject, none)
    | some p =>
      if p.user_id == userId then
        match statusRes with
        | none =>
          ({ status := 503,
             detail := some "Project status temporarily unavailable" }, none)
        | some doc => ({ status := 200, detail := none }, some doc)
      else (invalidUserOrProject, none)

/-- `get_project_config`: returns the stored configuration verbatim. -/
def get_project_config (db : Db) (userId raw : String) :
    HttpResponse × Option String :=
  match parseUUID raw with
  | none => (invalidUserOrProject, none)
  | some uid =>
    match db.findProject uid with
    | none => (invalidUserOrProject, none)
    | some p =>
      if p.user_id == userId then
        ({ status := 200, detail := none }, some p.configuration)
      else (invalidUserOrProject, none)

/-- The ORM flush for `db.delete(project)`.  `ProjectResult.project` is
`relationship("Project", backref="results")` with no delete cascade and
no `passive_deletes`, and the `project_id` column is nullable, so
SQLAlchemy loads the `results` collection, sets each child's
`project_id` to NULL, and then deletes the parent row; the DDL-level
`ondelete="CASCADE"` never fires because no child still references the
parent.  The ProjectResult rows survive, orphaned. -/
def Db.deleteProjectOrphanResults (db : Db) (uid : String) : Db :=
  { db with
    projects := db.projects.filter (fun p => !(p.id == uid)),
    results := db.results.map (fun r =>
      if r.project_id == some uid then { r with project_id := none }
      else r) }

structure DeleteOutcome where
  db : Db
  response : HttpResponse
  cleanupFailures : Nat
deriving Repr, DecidableEq

/-- `delete_project`: after the guard, `stop_solver_controller` is wrapped
in `try/except Exception`; a teardown failure only logs and increments the
`namespace_cleanup_failures` counter, then the row is deleted and 204 with
no body is returned. -/
def delete_project (env : ClusterEnv) (db : Db) (userId raw : String)
    (cleanupFailures : Nat) : DeleteOutcome :=
  match parseUUID raw with
  | none =>
    { db := db, response := invalidUserOrProject,
      cleanupFailures := cleanupFailures }
  | some uid =>
    match db.findProject uid with
    | none =>
      { db := db, response := invalidUserOrProject,
        cleanupFailures := cleanupFailures }
    | some p =>
      if p.user_id == userId then
        let failures :=
          match (stop_solver_controller env uid).2 with
          | some _ => cleanupFailures + 1
          | none => cleanupFailures
        { db := db.deleteProjectOrphanResults uid,
          response := { status := 204, detail := none },
          cleanupFailures := failures }
      else
        { db := db, response := invalidUserOrProject,
          cleanupFailures := cleanupFailures }

/-! ### Solution streaming (src/project_utils/data_streamer.py)

`data_streamer` runs the query `SELECT * FROM project_results WHERE
project_id = $1 ORDER BY id ASC` through a server-side cursor with
`prefetch=chunk_size` and yields the literal string "[", then iterates
the cursor.  asyncpg's `async for chunk in conn.cursor(...)` yields one
Record per iteration (prefetch only batches the fetching), so the
source's inner `for row in chunk` iterates that single record's column
values, and its first `dict(row)` call — on the record's first column
value, the bigint `id` — raises TypeError.  Hence for an empty result
set the generator yields "[" then "]", and for a nonempty result set it
yields "[" and then raises at the first record. -/

inductive Chunk where
  | str (s : String)
  | row (r : ProjectResult)
deriving Repr, DecidableEq

/-- The SQL ordering relation: ascending `project_results.id`. -/
def resultLE (a b : ProjectResult) : Prop := a.id ≤ b.id

instance : DecidableRel resultLE := fun a b => Nat.decLe a.id b.id

instance : IsTotal ProjectResult resultLE :=
  ⟨fun a b => Nat.le_total a.id b.id⟩

instance : IsTrans ProjectResult resultLE :=
  ⟨fun _ _ _ hab hbc => Nat.le_trans hab hbc⟩

/-- The records returned by the cursor's query: the project's rows in
ascending insertion-sequence (`id`) order. -/
def queryResultsOrdered (store : List ProjectResult) (pid : String) :
    List ProjectResult :=
  List.insertionSort resultLE
    (store.filter (fun r => r.project_id == some pid))

/-- What a run of the generator produces: the items yielded before it
either finishes or raises. -/
structure StreamResult where
  yielded : List Chunk
  errored : Bool
deriving Repr, DecidableEq

/-- The inner `for row in chunk` loop over one Record's column values:
the `is_first_item` separator logic runs for the first value, and then
`row_dict = dict(row)` — `row` being the bigint `id` column value, not
a mapping — raises TypeError, so nothing further is yielded from this
record (the `str(project_id)` conversion and the row yield are never
reached). -/
def emitRecordValues (isFirst : Bool) (r : ProjectResult) :
    List Chunk × Bool :=
  if isFirst then ([], true) else ([Chunk.str ", "], true)

/-- The `async for chunk in conn.cursor(...)` loop: one Record per
iteration; a raised TypeError ends the iteration (and the generator). -/
def emitCursor (isFirst : Bool) : List ProjectResult → List Chunk × Bool
  | [] => ([], false)
  | r :: rs =>
    let (out, err) := emitRecordValues isFirst r
    if err then (out, true)
    else
      let (rest, err2) := emitCursor false rs
      (out ++ rest, err2)

/-- `data_streamer`: the full sequence of yielded items; "]" is reached
only when the cursor loop finishes without raising. -/
def data_streamer (store : List ProjectResult) (pid : String)
    (chunkSize : Nat) : StreamResult :=
  let (body, err) := emitCursor true (queryResultsOrdered store pid)
  if err then { yielded := Chunk.str "[" :: body, errored := true }
  else
    { yielded := Chunk.str "[" :: (body ++ [Chunk.str "]"]),
      errored := false }

/-- Projection of a yielded stream onto its row objects. -/
def rowsOf (cs : List Chunk) : List ProjectResult :=
  cs.filterMap fun c =>
    match c with
    | .row r => some r
    | .str _ => none

/-! ### Application lifespan (src/main.py)

The `lifespan` context manager's startup section runs the alembic
migration (with retries) when `Config.App.DEBUG` is set, and nothing
else: it creates no connection pool, assigns nothing on `app.state`, and
starts no background task. -/

inductive StartupAction where
  | runMigrations
  | createPool
  | startResultCollector
deriving Repr, DecidableEq

/-- The startup actions the `lifespan` body performs before `yield`. -/
def lifespan_startup_actions (debug : Bool) : List StartupAction :=
  if debug then [.runMigrations] else []

/-- Process-wide `app.state`; only the `pool` attribute is relevant. -/
structure AppState where
  pool : Option Unit
deriving Repr, DecidableEq

/-- A fresh starlette `State` object has no `pool` attribute. -/
def initialAppState : AppState := { pool := none }

def applyStartupAction (s : AppState) (a : StartupAction) : AppState :=
  match a with
  | .createPool => { s with pool := some () }
  | _ => s

/-- `app.state` once the lifespan startup section has run. -/
def app_state_after_startup (debug : Bool) : AppState :=
  (lifespan_startup_actions debug).foldl applyStartupAction initialAppState

/-- FastAPI's response for an unhandled exception in a handler. -/
def internalServerError : HttpResponse :=
  { status := 500, detail := some "Internal Server Error" }

structure SolutionOutcome where
  response : HttpResponse
  stream : Option StreamResult
deriving Repr, DecidableEq

/-- `get_project_solution`: after the guard, the handler reads
`app.state.pool` and hands it to `data_streamer`; when the attribute was
never assigned the access raises `AttributeError`, an unhandled server
error. -/
def get_project_solution (state : AppState) (db : Db) (userId raw : String)
    (chunkSize : Nat) : SolutionOutcome :=
  match parseUUID raw with
  | none => { response := invalidUserOrProject, stream := none }
  | some uid =>
    match db.findProject uid with
    | none => { response := invalidUserOrProject, stream := none }
    | some p =>
      if p.user_id == userId then
        match state.pool with
        | none => { response := internalServerError, stream := none }
        | some _ =>
          { response := { status := 200, detail := none },
            stream := some (data_streamer db.results uid chunkSize) }
      else { response := invalidUserOrProject, stream := none }

/-! ### Result collector (src/spawner/result_collector.py)

One consumed message is modelled by how its handling would go: `parsed`
is the decoded JSON body (`none` when decoding, `json.loads`, or
`ProjectResult.from_json` raises), `env` gives the teardown outcome for a
final message, and `commitRes` the `db.commit()` outcome. -/

structure ResultMessage where
  final_message : Bool
  project_id : String
  problem_id : Int
  instance_id : Int
  solver_id : Int
  vcpus : Int
  result : String
deriving Repr, DecidableEq

structure MsgEvent where
  parsed : Option ResultMessage
  env : ClusterEnv
  commitRes : DbCallRes

structure ProcessOutcome where
  db : Db
  acked : Bool
  raised : Bool
  rowAdded : Option ProjectResult

/-- `ProjectResult.from_json` (src/models.py), applied after the final
markers have been popped: the marker fields are not among the columns it
fills. -/
def ProjectResult.from_json (nextId : Nat) (m : ResultMessage) :
    ProjectResult :=
  { id := nextId, project_id := some m.project_id, problem_id := m.problem_id,
    instance_id := m.instance_id, solver_id := m.solver_id,
    result := m.result, vcpus := m.vcpus }

/-- One iteration of the collector's message loop, i.e. the body of
`async with message.process():` together with the `try/except/finally`.
Any exception rolls the session back and re-raises, so the broker client
rejects (does not ack) the message and the exception leaves the scope.
A final message calls `stop_solver_controller` before persisting; that
call is inside the same `try`, so its failure aborts persistence. -/
def process_message (db : Db) (ev : MsgEvent) : ProcessOutcome :=
  match ev.parsed with
  | none => { db := db, acked := false, raised := true, rowAdded := none }
  | some m =>
    let teardownErr :=
      if m.final_message then (stop_solver_controller ev.env m.project_id).2
      else none
    match teardownErr with
    | some _ => { db := db, acked := false, raised := true, rowAdded := none }
    | none =>
      let row := ProjectResult.from_json db.nextResultId m
      match ev.commitRes with
      | .exc _ =>
        { db := db, acked := false, raised := true, rowAdded := none }
      | .ok =>
        { db := { db with results := db.results ++ [row],
                          nextResultId := db.nextResultId + 1 },
          acked := true, raised := false, rowAdded := some row }

structure CollectorRun where
  db : Db
  entered : Nat
  acked : Nat
  crashed : Bool

/-- The collector's `async for message in queue_iter` loop over a finite
prefix of the stream.  A raised per-message exception propagates out of
`message.process()` and out of the loop body, which has no handler, so
the iteration ends and the collector coroutine dies; later messages are
never consumed. -/
def result_collector_loop (db : Db) : List MsgEvent → CollectorRun
  | [] => { db := db, entered := 0, acked := 0, crashed := false }
  | ev :: rest =>
    let o := process_message db ev
    if o.raised then
      { db := o.db, entered := 1, acked := 0, crashed := true }
    else
      let r := result_collector_loop o.db rest
      { db := r.db, entered := r.entered + 1, acked := r.acked + 1,
        crashed := r.crashed }

/-! ### Concrete fixtures used by witnesses and counterexamples -/

/-- A cluster where every API call and the publish succeed. -/
def envAllOk : ClusterEnv :=
  { createNamespaceRes := fun _ => .ok, readTemplateSecretRes := .ok,
    createSecretRes := fun _ => .ok, createRoleRes := .ok,
    createRoleBindingRes := .ok, createQuotaRes := .ok,
    createPodRes := fun _ => .ok, createServiceRes := fun _ => .ok,
    deleteNamespaceRes := fun _ => .ok, publishRes := .ok }

def envPublishFails : ClusterEnv :=
  { envAllOk with publishRes := .exc "broker down" }

def envSecretConflict : ClusterEnv :=
  { envAllOk with createSecretRes := fun _ => .err 409 }

def envPodConflict : ClusterEnv :=
  { envAllOk with createPodRes := fun _ => .err 409 }

def envServiceConflict : ClusterEnv :=
  { envAllOk with createServiceRes := fun _ => .err 409 }

def envLenientConflicts : ClusterEnv :=
  { createNamespaceRes := fun _ => .err 409, readTemplateSecretRes := .ok,
    createSecretRes := fun _ => .ok, createRoleRes := .err 409,
    createRoleBindingRes := .err 409, createQuotaRes := .err 409,
    createPodRes := fun _ => .ok, createServiceRes := fun _ => .ok,
    deleteNamespaceRes := fun _ => .ok, publishRes := .ok }

def envTeardownFails : ClusterEnv :=
  { envAllOk with deleteNamespaceRes := fun _ => .err 404 }

def uuidHexA : String := "00000000000000000000000000000001"

def uuidRawA : String := "00000000-0000-0000-0000-000000000001"

def projectA : Project :=
  { id := uuidHexA, user_id := "alice", name := "Test Project",
    configuration := "cfg" }

def dbA : Db := { projects := [projectA], results := [], nextResultId := 0 }

def dbEmpty : Db := { projects := [], results := [], nextResultId := 0 }

/-- `true` when the request would be rejected by the shared guard of the
project-scoped routes: the id fails to parse, names no project, or names
a project of another user. -/
def guardRejectsB (db : Db) (userId raw : String) : Bool :=
  match parseUUID raw with
  | none => true
  | some uid =>
    match db.findProject uid with
    | none => true
    | some p => p.user_id != userId

/-! ### Helper lemmas -/

/-- Behaviour of the generator on a nonempty query: only "[" is yielded
before the TypeError. -/
theorem data_streamer_nonempty (store : List ProjectResult) (pid : String)
    (n : Nat) (r : ProjectResult) (rest : List ProjectResult)
    (hq : queryResultsOrdered store pid = r :: rest) :
    data_streamer store pid n =
      { yielded := [Chunk.str "["], errored := true } := by
  unfold data_streamer
  rw [hq]
  rfl

/-- Behaviour of the generator on an empty query: "[" then "]". -/
theorem data_streamer_empty (store : List ProjectResult) (pid : String)
    (n : Nat) (hq : queryResultsOrdered store pid = []) :
    data_streamer store pid n =
      { yielded := [Chunk.str "[", Chunk.str "]"], errored := false } := by
  unfold data_streamer
  rw [hq]
  rfl

theorem findProject_deleteOrphan (db : Db) (uid : String) :
    (db.deleteProjectOrphanResults uid).findProject uid = none := by
  simp [Db.deleteProjectOrphanResults, Db.findProject, List.find?_eq_none,
    List.mem_filter]

/-! ### Claim theorems -/

/-- C1: all-or-nothing create.  For every caller, configuration and
environment, if `start_project_services` (environment provisioning or the
configuration publish) raises during Create, the Project row is rolled
back — the database and the caller's project list are unchanged — and the
response is the generic `500 {"detail": "Unable to create project"}`,
which carries no internal exception text. -/
theorem create_project_all_or_nothing (ctx : CreateCtx) (db : Db)
    (u n c id : String) (e : SpawnErr)
    (hf : ctx.flushRes = .ok)
    (he : (start_project_services ctx.env ctx.limitReached id).err = some e) :
    (create_project ctx db u n c id).db = db ∧
    get_projects (create_project ctx db u n c id).db u = get_projects db u ∧
    (create_project ctx db u n c id).response = unableToCreate ∧
    (create_project ctx db u n c id).response.detail =
      some "Unable to create project" ∧
    (create_project ctx db u n c id).projectOut = none := by
  simp [create_project, hf, he, unableToCreate]

/-- Witness for C1: a run whose queue publish raises. -/
theorem create_project_all_or_nothing_witness :
    ((start_project_services envPublishFails false uuidHexA).err =
      some (.pubExc "broker down")) ∧
    ((create_project ⟨.ok, .ok, envPublishFails, false⟩ dbA "alice" "P" "cfg"
        uuidHexA).db = dbA ∧
      get_projects (create_project ⟨.ok, .ok, envPublishFails, false⟩ dbA
        "alice" "P" "cfg" uuidHexA).db "alice" = get_projects dbA "alice" ∧
      (create_project ⟨.ok, .ok, envPublishFails, false⟩ dbA "alice" "P" "cfg"
        uuidHexA).response = unableToCreate ∧
      (create_project ⟨.ok, .ok, envPublishFails, false⟩ dbA "alice" "P" "cfg"
        uuidHexA).response.detail = some "Unable to create project" ∧
      (create_project ⟨.ok, .ok, envPublishFails, false⟩ dbA "alice" "P" "cfg"
        uuidHexA).projectOut = none) :=
  ⟨by decide,
    create_project_all_or_nothing ⟨.ok, .ok, envPublishFails, false⟩ dbA
      "alice" "P" "cfg" uuidHexA (.pubExc "broker down") rfl (by decide)⟩

/-- C2: uniform not-found and ownership isolation.  For each of the four
project-scoped routes (status, config, solution, delete), a path id that
fails to parse as a UUID, names no project, or names a project the caller
does not own yields exactly `404 {"detail": "Invalid user or project"}`
(never 403); delete leaves the store and failure counter untouched.  The
response is one constant, so what a non-owner sees does not depend on
whether the project exists. -/
theorem project_routes_uniform_not_found (db : Db) (userId raw : String)
    (statusRes : Option String) (env : ClusterEnv) (st : AppState)
    (cs k : Nat)
    (h : guardRejectsB db userId raw = true) :
    (get_project_status db userId raw statusRes).1 = invalidUserOrProject ∧
    (get_project_config db userId raw).1 = invalidUserOrProject ∧
    (get_project_solution st db userId raw cs).response =
      invalidUserOrProject ∧
    (delete_project env db userId raw k).response = invalidUserOrProject ∧
    (delete_project env db userId raw k).db = db ∧
    (delete_project env db userId raw k).cleanupFailures = k ∧
    invalidUserOrProject =
      { status := 404, detail := some "Invalid user or project" } ∧
    invalidUserOrProject.status ≠ 403 := by
  cases hp : parseUUID raw with
  | none =>
    simp [get_project_status, get_project_config, get_project_solution,
      delete_project, hp, invalidUserOrProject]
  | some uid =>
    cases hq : db.findProject uid with
    | none =>
      simp [get_project_status, get_project_config, get_project_solution,
        delete_project, hp, hq, invalidUserOrProject]
    | some p =>
      have hne : (p.user_id == userId) = false := by
        have h2 := h
        simp [guardRejectsB, hp, hq] at h2
        simp [h2]
      simp [get_project_status, get_project_config, get_project_solution,
        delete_project, hp, hq, hne, invalidUserOrProject]

/-- Witness for C2: user bob probing alice's project id. -/
theorem project_routes_uniform_not_found_witness :
    (guardRejectsB dbA "bob" uuidRawA = true) ∧
    ((get_project_status dbA "bob" uuidRawA none).1 = invalidUserOrProject ∧
      (get_project_config dbA "bob" uuidRawA).1 = invalidUserOrProject ∧
      (get_project_solution initialAppState dbA "bob" uuidRawA
        1000).response = invalidUserOrProject ∧
      (delete_project envAllOk dbA "bob" uuidRawA 0).response =
        invalidUserOrProject ∧
      (delete_project envAllOk dbA "bob" uuidRawA 0).db = dbA ∧
      (delete_project envAllOk dbA "bob" uuidRawA 0).cleanupFailures = 0 ∧
      invalidUserOrProject =
        { status := 404, detail := some "Invalid user or project" } ∧
      invalidUserOrProject.status ≠ 403) :=
  ⟨by decide,
    project_routes_uniform_not_found dbA "bob" uuidRawA none envAllOk
      initialAppState 1000 0 (by decide)⟩

/-- C6: the per-user cap is checked before any cluster call — when the
limit is reached `start_project_services` raises with an empty cluster
call trace — but the `HTTPException(429, ...)` it raises is caught by the
bare `except Exception` in `create_project`, so the caller receives the
generic `500 "Unable to create project"`, not a distinct 429. -/
theorem rate_limit_surfaces_as_500 (ctx : CreateCtx) (db : Db)
    (u n c id : String)
    (hl : ctx.limitReached = true) (hf : ctx.flushRes = .ok) :
    (start_project_services ctx.env ctx.limitReached id).trace = [] ∧
    (start_project_services ctx.env ctx.limitReached id).err =
      some (.httpExc 429 detail429) ∧
    (create_project ctx db u n c id).response = unableToCreate ∧
    (create_project ctx db u n c id).response.status = 500 ∧
    (create_project ctx db u n c id).response.status ≠ 429 ∧
    (create_project ctx db u n c id).db = db := by
  have hs : start_project_services ctx.env ctx.limitReached id =
      { trace := [], err := some (.httpExc 429 detail429) } := by
    rw [hl]; rfl
  refine ⟨by rw [hs], by rw [hs], ?_, ?_, ?_, ?_⟩ <;>
    simp [create_project, hf, hs, unableToCreate]

/-- Witness for C6: a create call by a user at the cap. -/
theorem rate_limit_surfaces_as_500_witness :
    ((start_project_services envAllOk true uuidHexA).trace = [] ∧
      (start_project_services envAllOk true uuidHexA).err =
        some (.httpExc 429 detail429) ∧
      (create_project ⟨.ok, .ok, envAllOk, true⟩ dbEmpty "alice" "P" "cfg"
        uuidHexA).response = unableToCreate ∧
      (create_project ⟨.ok, .ok, envAllOk, true⟩ dbEmpty "alice" "P" "cfg"
        uuidHexA).response.status = 500 ∧
      (create_project ⟨.ok, .ok, envAllOk, true⟩ dbEmpty "alice" "P" "cfg"
        uuidHexA).response.status ≠ 429 ∧
      (create_project ⟨.ok, .ok, envAllOk, true⟩ dbEmpty "alice" "P" "cfg"
        uuidHexA).db = dbEmpty) :=
  rate_limit_surfaces_as_500 ⟨.ok, .ok, envAllOk, true⟩ dbEmpty "alice" "P"
    "cfg" uuidHexA rfl rfl

/-- A ProjectResult row belonging to alice's project. -/
def resultB : ProjectResult :=
  { id := 0, project_id := some uuidHexA, problem_id := 1,
    instance_id := 1, solver_id := 1, result := "r", vcpus := 1 }

/-- The orphaned form of `resultB`: its foreign key NULLed. -/
def resultBOrphan : ProjectResult :=
  { id := 0, project_id := none, problem_id := 1,
    instance_id := 1, solver_id := 1, result := "r", vcpus := 1 }

/-- alice's project together with one persisted result row. -/
def dbB : Db :=
  { projects := [projectA], results := [resultB], nextResultId := 1 }

/-- C8 counterexample: alice deletes her project while teardown raises;
Delete returns 204 and the Project row is removed, but the project's
ProjectResult row is not cascade-deleted — it survives with its
`project_id` NULLed (the ORM relationship has no delete cascade and no
passive_deletes, so SQLAlchemy nulls the nullable foreign key before the
parent delete and the DDL cascade never fires) — refuting the claim's
"cascading its ProjectResults" conjunct. -/
theorem delete_does_not_cascade_counterexample :
    (delete_project envTeardownFails dbB "alice" uuidRawA 0).response =
      { status := 204, detail := none } ∧
    (delete_project envTeardownFails dbB "alice" uuidRawA 0).db.projects =
      [] ∧
    (delete_project envTeardownFails dbB "alice" uuidRawA 0).db.results =
      [resultBOrphan] ∧
    (delete_project envTeardownFails dbB "alice" uuidRawA
      0).db.results.length = dbB.results.length := by
  refine ⟨rfl, by decide, by decide, by decide⟩

/-- C8 (amended): delete despite teardown failure.  For a project owned
by the caller, when `stop_solver_controller` raises, Delete still removes
the Project row, increments the cleanup-failure counter, and returns 204
with no body, and a subsequent GetStatus on the id yields the 404
"Invalid user or project"; but the ProjectResults are not cascade-deleted:
every result row survives (same row count), merely orphaned — no
surviving row references the deleted project because the ORM set its
`project_id` to NULL. -/
theorem delete_despite_teardown_failure (env : ClusterEnv) (db : Db)
    (u raw uid : String) (p : Project) (k st : Nat)
    (statusRes : Option String)
    (hp : parseUUID raw = some uid)
    (hq : db.findProject uid = some p)
    (ho : p.user_id = u)
    (ht : (stop_solver_controller env uid).2 = some st) :
    (delete_project env db u raw k).response =
      { status := 204, detail := none } ∧
    (delete_project env db u raw k).db = db.deleteProjectOrphanResults uid ∧
    (∀ q ∈ (delete_project env db u raw k).db.projects, q.id ≠ uid) ∧
    (delete_project env db u raw k).db.results.length =
      db.results.length ∧
    (∀ r ∈ (delete_project env db u raw k).db.results,
      r.project_id ≠ some uid) ∧
    (delete_project env db u raw k).cleanupFailures = k + 1 ∧
    (get_project_status (delete_project env db u raw k).db u raw
      statusRes).1 = invalidUserOrProject := by
  have hdel : delete_project env db u raw k =
      { db := db.deleteProjectOrphanResults uid,
        response := { status := 204, detail := none },
        cleanupFailures := k + 1 } := by
    simp [delete_project, hp, hq, ho, ht]
  refine ⟨by rw [hdel], by rw [hdel], ?_, ?_, ?_, by rw [hdel], ?_⟩
  · rw [hdel]
    intro q hqmem
    simp [Db.deleteProjectOrphanResults, List.mem_filter] at hqmem
    exact hqmem.2
  · rw [hdel]
    simp [Db.deleteProjectOrphanResults]
  · rw [hdel]
    intro r hrmem
    simp [Db.deleteProjectOrphanResults, List.mem_map] at hrmem
    rcases hrmem with ⟨a, ha, rfl⟩
    by_cases hcase : a.project_id = some uid
    · simp [hcase]
    · simp [hcase]
  · rw [hdel]
    simp [get_project_status, hp, findProject_deleteOrphan]

/-- Witness for C8 (amended): alice deletes her project (one result row
persisted) while namespace deletion raises a 404 `ApiException`. -/
theorem delete_despite_teardown_failure_witness :
    (parseUUID uuidRawA = some uuidHexA) ∧
    (dbB.findProject uuidHexA = some projectA) ∧
    ((stop_solver_controller envTeardownFails uuidHexA).2 = some 404) ∧
    ((delete_project envTeardownFails dbB "alice" uuidRawA 0).response =
      { status := 204, detail := none } ∧
      (delete_project envTeardownFails dbB "alice" uuidRawA 0).db =
        dbB.deleteProjectOrphanResults uuidHexA ∧
      (∀ q ∈ (delete_project envTeardownFails dbB "alice" uuidRawA
          0).db.projects, q.id ≠ uuidHexA) ∧
      (delete_project envTeardownFails dbB "alice" uuidRawA
        0).db.results.length = dbB.results.length ∧
      (∀ r ∈ (delete_project envTeardownFails dbB "alice" uuidRawA
          0).db.results, r.project_id ≠ some uuidHexA) ∧
      (delete_project envTeardownFails dbB "alice" uuidRawA
        0).cleanupFailures = 0 + 1 ∧
      (get_project_status (delete_project envTeardownFails dbB "alice"
        uuidRawA 0).db "alice" uuidRawA none).1 = invalidUserOrProject) :=
  ⟨by decide, by decide, by decide,
    delete_despite_teardown_failure envTeardownFails dbB "alice" uuidRawA
      uuidHexA projectA 0 404 none (by decide) (by decide) rfl (by decide)⟩

/-- C3: evaluated at startup, the `lifespan` handler starts zero
result-collector background tasks — not the one the claim requires —
whatever the DEBUG setting: its startup section only runs migrations in
DEBUG mode. -/
theorem lifespan_starts_no_result_collector (debug : Bool) :
    (lifespan_startup_actions debug).count
      StartupAction.startResultCollector = 0 ∧
    StartupAction.startResultCollector ∉ lifespan_startup_actions debug := by
  cases debug <;> decide

/-- C10: the lifespan never assigns `app.state.pool`, so every
GetSolution request that passes the UUID-parse and ownership checks hits
the missing attribute and ends in an unhandled server error, with no
streamed body. -/
theorem solution_route_pool_missing (debug : Bool) (db : Db)
    (u raw uid : String) (p : Project) (cs : Nat)
    (hp : parseUUID raw = some uid)
    (hq : db.findProject uid = some p)
    (ho : p.user_id = u) :
    StartupAction.createPool ∉ lifespan_startup_actions debug ∧
    (app_state_after_startup debug).pool = none ∧
    get_project_solution (app_state_after_startup debug) db u raw cs =
      { response := internalServerError, stream := none } := by
  have hpool : (app_state_after_startup debug).pool = none := by
    cases debug <;> rfl
  refine ⟨by cases debug <;> decide, hpool, ?_⟩
  simp [get_project_solution, hp, hq, ho, hpool]

/-- Witness for C10: alice requests the solution of her own project after
a non-DEBUG startup. -/
theorem solution_route_pool_missing_witness :
    (parseUUID uuidRawA = some uuidHexA) ∧
    (dbA.findProject uuidHexA = some projectA) ∧
    (StartupAction.createPool ∉ lifespan_startup_actions false ∧
      (app_state_after_startup false).pool = none ∧
      get_project_solution (app_state_after_startup false) dbA "alice"
        uuidRawA 1000 =
        { response := internalServerError, stream := none }) :=
  ⟨by decide, by decide,
    solution_route_pool_missing false dbA "alice" uuidRawA uuidHexA projectA
      1000 (by decide) (by decide) rfl⟩

/-- A non-final result message body. -/
def msgBody1 : ResultMessage :=
  { final_message := false, project_id := uuidHexA, problem_id := 1,
    instance_id := 2, solver_id := 3, vcpus := 4, result := "r1" }

/-- A second non-final result message body. -/
def msgBody2 : ResultMessage :=
  { final_message := false, project_id := uuidHexA, problem_id := 1,
    instance_id := 2, solver_id := 3, vcpus := 4, result := "r2" }

/-- A final-marker result message body. -/
def msgBodyFinal : ResultMessage :=
  { final_message := true, project_id := uuidHexA, problem_id := 1,
    instance_id := 2, solver_id := 3, vcpus := 4, result := "final" }

/-- A consumed message whose `db.commit()` raises. -/
def evCommitFails : MsgEvent :=
  { parsed := some msgBody1, env := envAllOk, commitRes := .exc "db down" }

/-- A consumed message whose handling succeeds. -/
def evOk : MsgEvent :=
  { parsed := some msgBody2, env := envAllOk, commitRes := .ok }

/-- A final message whose namespace teardown raises 404. -/
def evFinalTeardownFails : MsgEvent :=
  { parsed := some msgBodyFinal, env := envTeardownFails, commitRes := .ok }

/-- Any raising branch of `process_message` leaves the store unchanged
(rollback), does not ack, and adds no row. -/
theorem process_message_raised_spec (db : Db) (ev : MsgEvent)
    (h : (process_message db ev).raised = true) :
    process_message db ev =
      { db := db, acked := false, raised := true, rowAdded := none } := by
  obtain ⟨parsed, env, commitRes⟩ := ev
  cases parsed with
  | none => rfl
  | some m =>
    by_cases hf : m.final_message = true
    · cases htd : (stop_solver_controller env m.project_id).2 with
      | some st => simp [process_message, hf, htd]
      | none =>
        cases commitRes with
        | exc msg => simp [process_message, hf, htd]
        | ok => simp [process_message, hf, htd] at h
    · have hf2 : m.final_message = false := by simpa using hf
      cases commitRes with
      | exc msg => simp [process_message, hf2]
      | ok => simp [process_message, hf2] at h

/-- C4 counterexample: with two queued messages whose first fails at
`db.commit()`, the collector enters only the first message and the
coroutine crashes; the loop does not continue to the next message, so the
claim that "the collector task itself does not crash: its loop continues
with the next message" is false on this code. -/
theorem collector_crash_counterexample :
    (result_collector_loop dbEmpty [evCommitFails, evOk]).crashed = true ∧
    (result_collector_loop dbEmpty [evCommitFails, evOk]).entered = 1 ∧
    (result_collector_loop dbEmpty [evCommitFails, evOk]).acked = 0 ∧
    (result_collector_loop dbEmpty [evCommitFails, evOk]).db = dbEmpty := by
  refine ⟨rfl, rfl, rfl, rfl⟩

/-- C4 (amended): when processing a message raises, the transaction is
rolled back (store unchanged) and the message is not acknowledged, so the
broker redelivers or dead-letters it; but the collector task does crash —
the re-raised exception leaves `message.process()` and the `async for`
body, which has no handler, so the loop ends at the failing message and
later messages are never consumed. -/
theorem collector_failure_nacks_rolls_back_and_crashes (db : Db)
    (ev : MsgEvent) (rest : List MsgEvent)
    (h : (process_message db ev).raised = true) :
    (process_message db ev).db = db ∧
    (process_message db ev).acked = false ∧
    result_collector_loop db (ev :: rest) =
      { db := db, entered := 1, acked := 0, crashed := true } := by
  have hspec := process_message_raised_spec db ev h
  refine ⟨by rw [hspec], by rw [hspec], ?_⟩
  unfold result_collector_loop
  simp [hspec]

/-- Witness for C4 (amended): a message whose commit fails, followed by
nothing. -/
theorem collector_failure_nacks_rolls_back_and_crashes_witness :
    ((process_message dbEmpty evCommitFails).raised = true) ∧
    ((process_message dbEmpty evCommitFails).db = dbEmpty ∧
      (process_message dbEmpty evCommitFails).acked = false ∧
      result_collector_loop dbEmpty (evCommitFails :: []) =
        { db := dbEmpty, entered := 1, acked := 0, crashed := true }) :=
  ⟨rfl,
    collector_failure_nacks_rolls_back_and_crashes dbEmpty evCommitFails []
      rfl⟩

/-- C5 counterexample: a final message whose namespace teardown raises
(`delete_namespace` on an absent namespace raises a 404 `ApiException`,
which `stop_solver_controller` does not catch): no ProjectResult row is
constructed or committed — the store is unchanged even though the commit
itself would have succeeded — refuting the claim that a teardown failure
does not prevent the row from being inserted and committed. -/
theorem teardown_failure_blocks_persistence_counterexample :
    (process_message dbEmpty evFinalTeardownFails).db = dbEmpty ∧
    (process_message dbEmpty evFinalTeardownFails).rowAdded = none ∧
    (process_message dbEmpty evFinalTeardownFails).raised = true ∧
    (process_message dbEmpty evFinalTeardownFails).acked = false := by
  refine ⟨rfl, rfl, rfl, rfl⟩

/-- C5 (amended): the teardown call inside final-message handling is not
isolated — it sits in the same `try` as persistence — so when
`stop_solver_controller` raises for a final message, processing aborts:
the transaction is rolled back, no ProjectResult row is inserted, the
message is not acknowledged, and the exception propagates.  Persistence
is reached only when teardown succeeds. -/
theorem final_teardown_failure_aborts_message (db : Db) (env : ClusterEnv)
    (commitRes : DbCallRes) (m : ResultMessage) (st : Nat)
    (hf : m.final_message = true)
    (ht : (stop_solver_controller env m.project_id).2 = some st) :
    process_message db
        { parsed := some m, env := env, commitRes := commitRes } =
      { db := db, acked := false, raised := true, rowAdded := none } := by
  simp [process_message, hf, ht]

/-- Witness for C5 (amended): a final message over a cluster whose
namespace deletions raise 404. -/
theorem final_teardown_failure_aborts_message_witness :
    (msgBodyFinal.final_message = true) ∧
    ((stop_solver_controller envTeardownFails msgBodyFinal.project_id).2 =
      some 404) ∧
    (process_message dbEmpty
        { parsed := some msgBodyFinal, env := envTeardownFails,
          commitRes := .ok } =
      { db := dbEmpty, acked := false, raised := true, rowAdded := none }) :=
  ⟨rfl, by decide,
    final_teardown_failure_aborts_message dbEmpty envTeardownFails .ok
      msgBodyFinal 404 rfl (by decide)⟩


/-- C7 counterexample: an "already exists" 409 conflict on the
pull-credential secret copy, on a pod creation, or on a service creation
makes `start_project_services` fail with the propagated `ApiException`,
so re-running provisioning for the same project id fails on those
objects — refuting the claim that every cluster object creation treats
409 as success. -/
theorem conflict409_not_tolerated_everywhere :
    (start_project_services envSecretConflict false uuidHexA).err =
      some (.apiExc 409) ∧
    (start_project_services envPodConflict false uuidHexA).err =
      some (.apiExc 409) ∧
    (start_project_services envServiceConflict false uuidHexA).err =
      some (.apiExc 409) := by
  refine ⟨by decide, by decide, by decide⟩

/-- C7 (amended): only the two namespace creations, the role, the role
binding, and the resource quota treat a 409 conflict as success; the
secret copies, the two pods, and the two services have no such handling,
so provisioning succeeds on a re-run only when those six creations do not
conflict (and the template-secret read and publish succeed). -/
theorem conflict_tolerance_limited_to_ns_role_binding_quota
    (env : ClusterEnv) (id : String)
    (h1 : ∀ ns, env.createNamespaceRes ns = .ok ∨
      env.createNamespaceRes ns = .err 409)
    (h2 : env.createRoleRes = .ok ∨ env.createRoleRes = .err 409)
    (h3 : env.createRoleBindingRes = .ok ∨
      env.createRoleBindingRes = .err 409)
    (h4 : env.createQuotaRes = .ok ∨ env.createQuotaRes = .err 409)
    (h5 : env.readTemplateSecretRes = .ok)
    (h6 : ∀ ns, env.createSecretRes ns = .ok)
    (h7 : ∀ p, env.createPodRes p = .ok)
    (h8 : ∀ sv, env.createServiceRes sv = .ok)
    (h9 : env.publishRes = .ok) :
    (start_project_services env false id).err = none := by
  rcases h1 id with ha | ha <;>
    rcases h1 (solvers_namespace id) with hb | hb <;>
    rcases h2 with hc | hc <;> rcases h3 with hd | hd <;>
    rcases h4 with he2 | he2 <;>
    simp [start_project_services, spawnKubeSteps, runKubeSteps, stepFails,
      ha, hb, hc, hd, he2, h5, h6, h7, h8, h9]

/-- Witness for C7 (amended): re-provisioning over a cluster where both
namespaces, role, role binding and quota already exist (all five return
409) succeeds. -/
theorem conflict_tolerance_limited_witness :
    (envLenientConflicts.createRoleRes = .err 409) ∧
    (∀ ns, envLenientConflicts.createSecretRes ns = .ok) ∧
    (start_project_services envLenientConflicts false uuidHexA).err =
      none :=
  ⟨rfl, fun _ => rfl,
    conflict_tolerance_limited_to_ns_role_binding_quota envLenientConflicts
      uuidHexA (fun _ => Or.inr rfl) (Or.inr rfl) (Or.inr rfl) (Or.inr rfl)
      rfl (fun _ => rfl) (fun _ => rfl) (fun _ => rfl) rfl⟩

/-- Rows of one project, created out of id order. -/
def rowEx0 : ProjectResult :=
  { id := 0, project_id := some uuidHexA, problem_id := 1,
    instance_id := 2, solver_id := 1, result := "a", vcpus := 1 }

def rowEx1 : ProjectResult :=
  { id := 1, project_id := some uuidHexA, problem_id := 1,
    instance_id := 3, solver_id := 1, result := "b", vcpus := 1 }

def rowEx2 : ProjectResult :=
  { id := 2, project_id := some uuidHexA, problem_id := 1,
    instance_id := 1, solver_id := 1, result := "c", vcpus := 1 }

/-- A row of a different project. -/
def rowExOther : ProjectResult :=
  { id := 3, project_id := some "ffff0000000000000000000000000002",
    problem_id := 9, instance_id := 9, solver_id := 9, result := "x",
    vcpus := 9 }

/-- A store whose rows arrived out of id order, for two projects. -/
def storeEx : List ProjectResult := [rowEx2, rowEx0, rowExOther, rowEx1]

/-- C9: evaluated at the failing input — any store holding at least one
result row for the project, any chunk size — the streamer yields only
"[" and then raises TypeError: asyncpg's cursor yields one Record per
iteration, so `for row in chunk` iterates the record's column values and
`dict(row)` on the first value (the bigint id) raises.  No row object
and no closing "]" is ever streamed, for every chunk size alike, so the
claimed ordered JSON array is never produced for nonempty data. -/
theorem solution_stream_crashes_on_rows (store : List ProjectResult)
    (pid : String) (n : Nat) (r : ProjectResult)
    (rest : List ProjectResult)
    (hq : queryResultsOrdered store pid = r :: rest) :
    data_streamer store pid n =
      { yielded := [Chunk.str "["], errored := true } ∧
    rowsOf (data_streamer store pid n).yielded = [] ∧
    (∀ m : Nat, data_streamer store pid m = data_streamer store pid n) := by
  have h1 := data_streamer_nonempty store pid n r rest hq
  refine ⟨h1, by rw [h1]; rfl, ?_⟩
  intro m
  rw [h1, data_streamer_nonempty store pid m r rest hq]

/-- Witness for C9: the streamer over a store holding three rows of the
project crashes right after "[", whatever the chunk size. -/
theorem solution_stream_crashes_on_rows_witness :
    (queryResultsOrdered storeEx uuidHexA = rowEx0 :: [rowEx1, rowEx2]) ∧
    (data_streamer storeEx uuidHexA 2 =
      { yielded := [Chunk.str "["], errored := true } ∧
    rowsOf (data_streamer storeEx uuidHexA 2).yielded = [] ∧
    (∀ m : Nat, data_streamer storeEx uuidHexA m =
      data_streamer storeEx uuidHexA 2)) :=
  ⟨by decide,
    solution_stream_crashes_on_rows storeEx uuidHexA 2 rowEx0
      [rowEx1, rowEx2] (by decide)⟩

end SolverDirector
